import Mathlib

/-!
Shallow embedding of the seat-inventory booking/cancellation engine of
`src/railway3.cc` (Railway Reservation System).

The persistent SQLite tables are modelled as in-memory lists:
  * `schedules` rows (schema lines 97-106) become `Schedule` records; the
    train columns that booking reads through the join (`ac_fare`,
    `sleeper_fare`, and the totals copied at scheduling time, lines
    404-414) are snapshotted into the record, which is faithful because the
    program never updates a train row after `addTrain`.
  * `bookings` rows (schema lines 108-118) become `Booking` records.

Numeric columns: INTEGER columns are `Int` (C++ `int`), REAL fare columns
are modelled as exact integer amounts (`Int`); the claims under study
concern the fare formula `numSeats * farePerSeat` (line 584), i.e. the
algebraic structure of the computation, not floating-point rounding.  Dates are abstracted to `Nat` with `≤` standing for the SQL
string comparison `departure_date >= date('now')` (line 495), which is
order-isomorphic for the `YYYY-MM-DD` format the program uses.

The interactive layer (menus, `std::cin`) is modelled by passing the
console inputs (schedule id, class choice, seat count, confirmation
character) as arguments.  The random `generateTicketId` (lines 231-236) is
modelled by an input stream `freshIds : List String`; the source calls the
generator exactly once per booking attempt (line 585), so only the head of
the stream is consumed.  The database layer itself is assumed available:
the `beginTransaction` / `executeUpdate`-infrastructure failure branches
(lines 598-602, 621-623, 690-692) are environmental and not modelled,
except for the one statement failure the program itself can provoke, the
`bookings` INSERT violating the `ticket_id` PRIMARY KEY, which makes
`executeUpdate(bookingSql)` return false and roll the transaction back
(lines 615-624).
-/

namespace Railway

/-- One row of the `schedules` table, joined with the immutable train
columns that booking reads (lines 495, 604).  `acCapacity` and
`sleeperCapacity` record the train totals copied at scheduling time
(lines 411-414). -/
structure Schedule where
  scheduleId : Nat
  date : Nat
  acAvailable : Int
  sleeperAvailable : Int
  acCapacity : Int
  sleeperCapacity : Int
  acFare : Int
  sleeperFare : Int
deriving Repr, DecidableEq

/-- One row of the `bookings` table (schema lines 108-118). -/
structure Booking where
  ticketId : String
  owner : String
  scheduleId : Nat
  seatClass : String
  seatCount : Int
  totalFare : Int
deriving Repr, DecidableEq

/-- The mutable database state the booking/cancellation engine touches. -/
structure SysState where
  schedules : List Schedule
  bookings : List Booking
deriving Repr, DecidableEq

/-- `scheduleTrain` (lines 395-421): inserts a schedule row whose
availability counters are initialised to the train's totals
(lines 411-414). -/
def scheduleTrain (st : SysState) (sid date : Nat) (totalAc totalSleeper : Int)
    (acFare sleeperFare : Int) : SysState :=
  { st with schedules :=
      st.schedules ++ [⟨sid, date, totalAc, totalSleeper, totalAc, totalSleeper,
        acFare, sleeperFare⟩] }

/-- Outcomes of `bookTicket`, one constructor per console message /
return path of lines 492-629. -/
inductive BookOutcome where
  /-- line 499: "No trains are currently scheduled for booking." -/
  | noSchedules
  /-- line 552: "Invalid ID." -/
  | invalidScheduleId
  /-- line 573: "Invalid choice." -/
  | invalidClassChoice
  /-- line 581: "Invalid number of seats or not enough seats available." -/
  | invalidSeatsOrUnavailable
  /-- line 608: "Booking failed: Seats were taken by another user." -/
  | seatsTaken
  /-- line 623: "Booking failed due to a database error."  In this model
  the only statement the program itself can make fail is the bookings
  INSERT violating the `ticket_id` PRIMARY KEY. -/
  | duplicateTicketDbError
  /-- line 626: "Booking cancelled." -/
  | notConfirmed
  /-- line 620: "Booking successful!" -/
  | booked (b : Booking)
deriving Repr, DecidableEq

/-- The Booking record assembled by `bookingSql` (line 615): ticket id,
logged-in user, schedule id, chosen class (line 569/571), seat count and
the fare computed at line 584. -/
def mkBooking (user : String) (sid : Nat) (choice numSeats : Int)
    (sched : Schedule) (tid : String) : Booking :=
  ⟨tid, user, sid, if choice = 1 then "AC" else "Sleeper", numSeats,
    numSeats * (if choice = 1 then sched.acFare else sched.sleeperFare)⟩

/-- The `updateSql` of line 616: set the chosen seat column of every
schedule row with the given id to the absolute value
`currentAvailableSeats - numSeats` computed at line 613/616. -/
def applyDecrement (schedules : List Schedule) (sid : Nat) (choice newCount : Int) :
    List Schedule :=
  schedules.map (fun s =>
    if s.scheduleId = sid then
      (if choice = 1 then { s with acAvailable := newCount }
       else { s with sleeperAvailable := newCount })
    else s)

/-- `bookTicket` (lines 492-629), with the console inputs passed as
arguments in the order the program reads them. -/
def bookTicket (st : SysState) (today : Nat) (loggedInUsername : String)
    (scheduleId : Nat) (choice numSeats : Int) (confirm : Char)
    (freshIds : List String) : BookOutcome × SysState :=
  -- line 495: schedules joined with trains, departure_date >= today
  let results := st.schedules.filter (fun s => decide (today ≤ s.date))
  if results.isEmpty then (.noSchedules, st)
  else
    -- lines 543-553: find the listed row with the entered schedule id
    match results.find? (fun s => decide (s.scheduleId = scheduleId)) with
    | none => (.invalidScheduleId, st)
    | some sched =>
      -- lines 568-574: class choice 1 = AC, 2 = Sleeper, otherwise invalid
      if choice = 1 ∨ choice = 2 then
        let availableSeats : Int :=
          if choice = 1 then sched.acAvailable else sched.sleeperAvailable
        -- line 580: one combined check for non-positive and too-many seats
        if numSeats ≤ 0 ∨ availableSeats < numSeats then
          (.invalidSeatsOrUnavailable, st)
        else
          -- line 585: generateTicketId() is called exactly once
          let ticketId := freshIds.headD "TKT000000"
          -- lines 592-596: confirmation gate before the transaction
          if confirm = 'y' ∨ confirm = 'Y' then
            -- lines 604-611: in-transaction re-read of the seat column
            match st.schedules.find? (fun s => decide (s.scheduleId = scheduleId)) with
            | none => (.seatsTaken, st)
            | some cur =>
              let currentAvailableSeats : Int :=
                if choice = 1 then cur.acAvailable else cur.sleeperAvailable
              if currentAvailableSeats < numSeats then (.seatsTaken, st)
              else
                -- line 618: the INSERT fails on a ticket_id collision and
                -- the transaction is rolled back (no retry exists)
                if st.bookings.any (fun b => decide (b.ticketId = ticketId)) then
                  (.duplicateTicketDbError, st)
                else
                  (.booked (mkBooking loggedInUsername scheduleId choice numSeats sched ticketId),
                   ⟨applyDecrement st.schedules scheduleId choice (currentAvailableSeats - numSeats),
                    st.bookings ++ [mkBooking loggedInUsername scheduleId choice numSeats sched ticketId]⟩)
          else (.notConfirmed, st)
      else (.invalidClassChoice, st)

/-- Outcomes of `cancelTicket` (lines 656-695). -/
inductive CancelOutcome where
  /-- line 689: "Ticket cancelled successfully!" -/
  | cancelled
  /-- line 674: "Invalid Ticket ID or you do not own this ticket." -/
  | notFoundOrNotOwned
deriving Repr, DecidableEq

/-- `cancelTicket` (lines 656-695): look up the booking by ticket id and
owner (line 669, first row of the result set), delete every bookings row
with that ticket id (line 684) and add the seat count back to the column
selected by the stored class (lines 682, 685). -/
def cancelTicket (st : SysState) (loggedInUsername : String) (ticketId : String) :
    CancelOutcome × SysState :=
  match st.bookings.find?
      (fun b => decide (b.ticketId = ticketId ∧ b.owner = loggedInUsername)) with
  | none => (.notFoundOrNotOwned, st)
  | some bk =>
    (.cancelled,
     ⟨st.schedules.map (fun s =>
        if s.scheduleId = bk.scheduleId then
          (if bk.seatClass = "AC" then
            { s with acAvailable := s.acAvailable + bk.seatCount }
           else
            { s with sleeperAvailable := s.sleeperAvailable + bk.seatCount })
        else s),
      st.bookings.filter (fun b => decide (¬ b.ticketId = ticketId))⟩)

/-- Total seats of the live bookings of one class referencing one
schedule (the sum the conservation invariant speaks about). -/
def classBooked (cls : String) (bs : List Booking) (sid : Nat) : Int :=
  ((bs.filter (fun b => decide (b.scheduleId = sid ∧ b.seatClass = cls))).map
    (fun b => b.seatCount)).sum

/-- Conservation: per schedule, availability plus live booked seats of a
class equals that class's capacity. -/
def Conservation (st : SysState) : Prop :=
  ∀ s ∈ st.schedules,
    s.acAvailable + classBooked "AC" st.bookings s.scheduleId = s.acCapacity ∧
    s.sleeperAvailable + classBooked "Sleeper" st.bookings s.scheduleId = s.sleeperCapacity

/-- Non-negativity of both availability counters of every schedule. -/
def NonnegAvail (st : SysState) : Prop :=
  ∀ s ∈ st.schedules, 0 ≤ s.acAvailable ∧ 0 ≤ s.sleeperAvailable

/-- The inductive invariant of the engine.  The key-uniqueness fields
reflect the PRIMARY KEY constraints of the schema (lines 99, 110). -/
structure Inv (st : SysState) : Prop where
  schedKeys : (st.schedules.map (fun s => s.scheduleId)).Nodup
  ticketKeys : (st.bookings.map (fun b => b.ticketId)).Nodup
  bookingsWF : ∀ b ∈ st.bookings,
    (b.seatClass = "AC" ∨ b.seatClass = "Sleeper") ∧ 0 < b.seatCount ∧
    b.scheduleId ∈ st.schedules.map (fun s => s.scheduleId)
  conserve : Conservation st
  nonneg : NonnegAvail st

/-- States reachable by the engine from an empty database.  The
`schedule` step models `scheduleTrain`; its side conditions come from the
out-of-scope catalog boundary: the spec's data model requires the train
totals handed over by the catalog to be non-negative, and
`schedule_id INTEGER PRIMARY KEY AUTOINCREMENT` (line 99) guarantees a
fresh id.  `deleteTrain` (lines 441-451) touches only the trains table and
therefore leaves this state unchanged. -/
inductive Reachable : SysState → Prop where
  | init : Reachable ⟨[], []⟩
  | schedule : ∀ (st : SysState) (sid date : Nat) (totalAc totalSleeper : Int)
      (acFare sleeperFare : Int), Reachable st →
      0 ≤ totalAc → 0 ≤ totalSleeper →
      sid ∉ st.schedules.map (fun s => s.scheduleId) →
      Reachable (scheduleTrain st sid date totalAc totalSleeper acFare sleeperFare)
  | book : ∀ (st : SysState) (today : Nat) (user : String) (sid : Nat)
      (choice numSeats : Int) (confirm : Char) (freshIds : List String),
      Reachable st →
      Reachable (bookTicket st today user sid choice numSeats confirm freshIds).2
  | cancel : ∀ (st : SysState) (user tid : String), Reachable st →
      Reachable (cancelTicket st user tid).2

/-! ### Helper lemmas about the booked-seat sums -/

theorem classBooked_nil (cls : String) (sid : Nat) : classBooked cls [] sid = 0 := rfl

theorem classBooked_cons (cls : String) (b : Booking) (bs : List Booking) (sid : Nat) :
    classBooked cls (b :: bs) sid =
      (if b.scheduleId = sid ∧ b.seatClass = cls then b.seatCount else 0) +
        classBooked cls bs sid := by
  unfold classBooked
  rw [List.filter_cons]
  by_cases h : b.scheduleId = sid ∧ b.seatClass = cls
  · simp [h]
  · simp [h]

theorem classBooked_append (cls : String) (bs : List Booking) (b : Booking) (sid : Nat) :
    classBooked cls (bs ++ [b]) sid =
      classBooked cls bs sid +
        (if b.scheduleId = sid ∧ b.seatClass = cls then b.seatCount else 0) := by
  unfold classBooked
  rw [List.filter_append, List.map_append, List.sum_append]
  by_cases h : b.scheduleId = sid ∧ b.seatClass = cls
  · simp [h]
  · simp [h]

theorem classBooked_zero_of_no_ref (cls : String) (bs : List Booking) (sid : Nat)
    (h : ∀ b ∈ bs, ¬ b.scheduleId = sid) : classBooked cls bs sid = 0 := by
  induction bs with
  | nil => rfl
  | cons a l ih =>
    rw [classBooked_cons]
    have ha : ¬ a.scheduleId = sid := h a (List.mem_cons_self a l)
    have : ¬ (a.scheduleId = sid ∧ a.seatClass = cls) := fun hc => ha hc.1
    rw [if_neg this, ih (fun b hb => h b (List.mem_cons_of_mem a hb))]
    ring

theorem filter_no_tid (bs : List Booking) (tid : String)
    (h : ∀ b ∈ bs, ¬ b.ticketId = tid) :
    bs.filter (fun b => decide (¬ b.ticketId = tid)) = bs := by
  apply List.filter_eq_self.mpr
  intro b hb
  simpa using h b hb

theorem classBooked_filter_out (cls : String) (sid : Nat) (tid : String)
    (bs : List Booking) (bk : Booking)
    (hnd : (bs.map (fun b => b.ticketId)).Nodup)
    (hmem : bk ∈ bs) (htid : bk.ticketId = tid) :
    classBooked cls (bs.filter (fun b => decide (¬ b.ticketId = tid))) sid =
      classBooked cls bs sid -
        (if bk.scheduleId = sid ∧ bk.seatClass = cls then bk.seatCount else 0) := by
  induction bs with
  | nil => cases hmem
  | cons a l ih =>
    rw [List.map_cons, List.nodup_cons] at hnd
    rcases List.mem_cons.mp hmem with rfl | hmem2
    · -- the found booking is the head; the tail has no row with this tid
      have hl : ∀ b ∈ l, ¬ b.ticketId = tid := by
        intro b hb hbt
        apply hnd.1
        rw [htid, ← hbt]
        exact List.mem_map_of_mem (fun x => x.ticketId) hb
      rw [List.filter_cons, if_neg (by simp [htid])]
      rw [filter_no_tid l tid hl, classBooked_cons]
      ring
    · -- the found booking is in the tail, so the head survives the filter
      have hat : ¬ a.ticketId = tid := by
        intro hbt
        apply hnd.1
        rw [hbt, ← htid]
        exact List.mem_map_of_mem (fun x => x.ticketId) hmem2
      rw [List.filter_cons, if_pos (by simp [hat])]
      rw [classBooked_cons, classBooked_cons, ih hnd.2 hmem2]
      ring

/-! ### Helper lemmas about key uniqueness -/

theorem mem_eq_of_keys_nodup (l : List Schedule)
    (hnd : (l.map (fun s => s.scheduleId)).Nodup) (s t : Schedule)
    (hs : s ∈ l) (ht : t ∈ l) (h : s.scheduleId = t.scheduleId) : s = t := by
  induction l with
  | nil => cases hs
  | cons a l ih =>
    rw [List.map_cons, List.nodup_cons] at hnd
    rcases List.mem_cons.mp hs with rfl | hs2 <;> rcases List.mem_cons.mp ht with rfl | ht2
    · rfl
    · exact absurd (h ▸ List.mem_map_of_mem (fun x => x.scheduleId) ht2) hnd.1
    · exact absurd (h ▸ List.mem_map_of_mem (fun x => x.scheduleId) hs2) hnd.1
    · exact ih hnd.2 hs2 ht2

theorem find?_schedule_eq (l : List Schedule)
    (hnd : (l.map (fun s => s.scheduleId)).Nodup) (sid : Nat) (s : Schedule)
    (hs : s ∈ l) (hsid : s.scheduleId = sid) :
    l.find? (fun x => decide (x.scheduleId = sid)) = some s := by
  induction l with
  | nil => cases hs
  | cons a l ih =>
    rw [List.map_cons, List.nodup_cons] at hnd
    rcases List.mem_cons.mp hs with rfl | hs2
    · rw [List.find?_cons_of_pos]
      simpa using hsid
    · have hat : ¬ a.scheduleId = sid := by
        intro h
        exact hnd.1 (h ▸ hsid ▸ List.mem_map_of_mem (fun x => x.scheduleId) hs2)
      rw [List.find?_cons_of_neg]
      · exact ih hnd.2 hs2
      · simpa using hat

/-! ### Case analysis of the two transactions -/

/-- Every run of `bookTicket` either leaves the state untouched and does
not return a booking, or commits: all the guards of lines 543-618 held and
both the INSERT and the UPDATE are applied. -/
theorem bookTicket_cases (st : SysState) (today : Nat) (user : String) (sid : Nat)
    (choice numSeats : Int) (confirm : Char) (freshIds : List String) :
    ((bookTicket st today user sid choice numSeats confirm freshIds).2 = st ∧
      ∀ b, (bookTicket st today user sid choice numSeats confirm freshIds).1 ≠ .booked b) ∨
    (∃ sched cur,
      (st.schedules.filter (fun s => decide (today ≤ s.date))).find?
          (fun s => decide (s.scheduleId = sid)) = some sched ∧
      st.schedules.find? (fun s => decide (s.scheduleId = sid)) = some cur ∧
      (choice = 1 ∨ choice = 2) ∧ 0 < numSeats ∧
      numSeats ≤ (if choice = 1 then sched.acAvailable else sched.sleeperAvailable) ∧
      numSeats ≤ (if choice = 1 then cur.acAvailable else cur.sleeperAvailable) ∧
      (confirm = 'y' ∨ confirm = 'Y') ∧
      (∀ b0 ∈ st.bookings, ¬ b0.ticketId = freshIds.headD "TKT000000") ∧
      bookTicket st today user sid choice numSeats confirm freshIds =
        (.booked (mkBooking user sid choice numSeats sched (freshIds.headD "TKT000000")),
         ⟨applyDecrement st.schedules sid choice
            ((if choice = 1 then cur.acAvailable else cur.sleeperAvailable) - numSeats),
          st.bookings ++ [mkBooking user sid choice numSeats sched (freshIds.headD "TKT000000")]⟩)) := by
  unfold bookTicket
  dsimp only
  split
  · exact Or.inl ⟨rfl, fun b h => nomatch h⟩
  split
  · exact Or.inl ⟨rfl, fun b h => nomatch h⟩
  next sched hfind =>
  split
  case isFalse => exact Or.inl ⟨rfl, fun b h => nomatch h⟩
  next hchoice =>
  rcases hchoice with rfl | rfl
  · simp only [if_pos (rfl : (1 : Int) = 1), if_true]
    split
    · exact Or.inl ⟨rfl, fun b h => nomatch h⟩
    next hseats =>
    split
    case isFalse => exact Or.inl ⟨rfl, fun b h => nomatch h⟩
    next hconfirm =>
    split
    · exact Or.inl ⟨rfl, fun b h => nomatch h⟩
    next cur hcur =>
    split
    · exact Or.inl ⟨rfl, fun b h => nomatch h⟩
    next hcurSeats =>
    split
    · exact Or.inl ⟨rfl, fun b h => nomatch h⟩
    next hany =>
    refine Or.inr ⟨sched, cur, hfind, hcur, by decide, ?_, ?_, ?_, hconfirm, ?_, rfl⟩
    · push_neg at hseats
      omega
    · push_neg at hseats
      omega
    · omega
    · intro b0 hb0
      rw [Bool.not_eq_true, List.any_eq_false] at hany
      simpa using hany b0 hb0
  · simp only [if_neg (by decide : ¬ (2 : Int) = 1)]
    split
    · exact Or.inl ⟨rfl, fun b h => nomatch h⟩
    next hseats =>
    split
    case isFalse => exact Or.inl ⟨rfl, fun b h => nomatch h⟩
    next hconfirm =>
    split
    · exact Or.inl ⟨rfl, fun b h => nomatch h⟩
    next cur hcur =>
    split
    · exact Or.inl ⟨rfl, fun b h => nomatch h⟩
    next hcurSeats =>
    split
    · exact Or.inl ⟨rfl, fun b h => nomatch h⟩
    next hany =>
    refine Or.inr ⟨sched, cur, hfind, hcur, by decide, ?_, ?_, ?_, hconfirm, ?_, rfl⟩
    · push_neg at hseats
      omega
    · push_neg at hseats
      omega
    · omega
    · intro b0 hb0
      rw [Bool.not_eq_true, List.any_eq_false] at hany
      simpa using hany b0 hb0

/-- Every run of `cancelTicket` either fails the lookup of line 669 and
leaves the state untouched, or deletes the found booking's rows and adds
its seats back. -/
theorem cancelTicket_cases (st : SysState) (user tid : String) :
    (st.bookings.find? (fun b => decide (b.ticketId = tid ∧ b.owner = user)) = none ∧
      cancelTicket st user tid = (.notFoundOrNotOwned, st)) ∨
    (∃ bk, st.bookings.find? (fun b => decide (b.ticketId = tid ∧ b.owner = user)) = some bk ∧
      cancelTicket st user tid =
        (.cancelled,
         ⟨st.schedules.map (fun s =>
            if s.scheduleId = bk.scheduleId then
              (if bk.seatClass = "AC" then
                { s with acAvailable := s.acAvailable + bk.seatCount }
               else
                { s with sleeperAvailable := s.sleeperAvailable + bk.seatCount })
            else s),
          st.bookings.filter (fun b => decide (¬ b.ticketId = tid))⟩)) := by
  unfold cancelTicket
  split
  next heq => exact Or.inl ⟨heq, rfl⟩
  next bk heq => exact Or.inr ⟨bk, heq, rfl⟩

/-! ### Preservation of the invariant -/

theorem keys_map_eq (l : List Schedule) (u : Schedule → Schedule)
    (h : ∀ s, (u s).scheduleId = s.scheduleId) :
    (l.map u).map (fun s => s.scheduleId) = l.map (fun s => s.scheduleId) := by
  rw [List.map_map]
  exact List.map_congr_left (fun s _ => h s)

theorem inv_scheduleTrain (st : SysState) (sid date : Nat) (totalAc totalSleeper : Int)
    (acFare sleeperFare : Int) (hInv : Inv st) (hac : 0 ≤ totalAc) (hsl : 0 ≤ totalSleeper)
    (hfresh : sid ∉ st.schedules.map (fun s => s.scheduleId)) :
    Inv (scheduleTrain st sid date totalAc totalSleeper acFare sleeperFare) := by
  obtain ⟨k1, k2, k3, k4, k5⟩ := hInv
  have keysEq : (scheduleTrain st sid date totalAc totalSleeper acFare sleeperFare).schedules.map
      (fun s => s.scheduleId) = st.schedules.map (fun s => s.scheduleId) ++ [sid] := by
    simp [scheduleTrain]
  constructor
  · rw [keysEq, List.nodup_append]
    refine ⟨k1, List.nodup_singleton _, ?_⟩
    intro a ha hb
    rw [List.mem_singleton] at hb
    exact hfresh (hb ▸ ha)
  · exact k2
  · intro b hb
    obtain ⟨c1, c2, c3⟩ := k3 b hb
    exact ⟨c1, c2, by rw [keysEq]; exact List.mem_append_left _ c3⟩
  · intro s hs
    simp only [scheduleTrain] at hs ⊢
    rcases List.mem_append.mp hs with hs2 | hs2
    · exact k4 s hs2
    · rw [List.mem_singleton] at hs2
      subst hs2
      have hzero : ∀ cls, classBooked cls st.bookings sid = 0 := by
        intro cls
        apply classBooked_zero_of_no_ref
        intro b hb hbsid
        exact hfresh (hbsid ▸ (k3 b hb).2.2)
      constructor
      · show totalAc + classBooked "AC" st.bookings sid = totalAc
        rw [hzero "AC"]; ring
      · show totalSleeper + classBooked "Sleeper" st.bookings sid = totalSleeper
        rw [hzero "Sleeper"]; ring
  · intro s hs
    simp only [scheduleTrain] at hs
    rcases List.mem_append.mp hs with hs2 | hs2
    · exact k5 s hs2
    · rw [List.mem_singleton] at hs2
      subst hs2
      exact ⟨hac, hsl⟩

theorem inv_cancel (st : SysState) (user tid : String) (hInv : Inv st) :
    Inv (cancelTicket st user tid).2 := by
  rcases cancelTicket_cases st user tid with ⟨_, heq⟩ | ⟨bk, hfind, heq⟩
  · rw [heq]; exact hInv
  rw [heq]
  obtain ⟨k1, k2, k3, k4, k5⟩ := hInv
  have hbk := List.mem_of_find?_eq_some hfind
  have hbtid : bk.ticketId = tid := by
    have h := List.find?_some hfind
    simp only [decide_eq_true_eq] at h
    exact h.1
  obtain ⟨hbcls, hbpos, _⟩ := k3 bk hbk
  have hsum : ∀ cls sid, classBooked cls
      (st.bookings.filter (fun b => decide (¬ b.ticketId = tid))) sid =
      classBooked cls st.bookings sid -
        (if bk.scheduleId = sid ∧ bk.seatClass = cls then bk.seatCount else 0) :=
    fun cls sid => classBooked_filter_out cls sid tid st.bookings bk k2 hbk hbtid
  constructor
  · rw [keys_map_eq]
    · exact k1
    · intro s
      dsimp only
      split
      · split <;> rfl
      · rfl
  · exact List.Nodup.sublist (List.Sublist.map _ (List.filter_sublist _)) k2
  · intro b hb
    have hb2 := List.mem_of_mem_filter hb
    obtain ⟨c1, c2, c3⟩ := k3 b hb2
    refine ⟨c1, c2, ?_⟩
    rw [keys_map_eq]
    · exact c3
    · intro s
      dsimp only
      split
      · split <;> rfl
      · rfl
  · intro s2 hs2
    obtain ⟨s, hs, rfl⟩ := List.mem_map.mp hs2
    obtain ⟨c1, c2⟩ := k4 s hs
    by_cases hmatch : s.scheduleId = bk.scheduleId
    · rcases hbcls with hAC | hSL
      · rw [if_pos hmatch, if_pos hAC]
        dsimp only
        rw [hsum "AC" s.scheduleId, hsum "Sleeper" s.scheduleId,
          if_pos ⟨hmatch.symm, hAC⟩, if_neg (by simp [hAC])]
        constructor <;> omega
      · rw [if_pos hmatch, if_neg (by simp [hSL])]
        dsimp only
        rw [hsum "AC" s.scheduleId, hsum "Sleeper" s.scheduleId,
          if_neg (by simp [hSL]), if_pos ⟨hmatch.symm, hSL⟩]
        constructor <;> omega
    · rw [if_neg hmatch]
      rw [hsum "AC" s.scheduleId, hsum "Sleeper" s.scheduleId,
        if_neg (fun h => hmatch h.1.symm), if_neg (fun h => hmatch h.1.symm)]
      constructor <;> omega
  · intro s2 hs2
    obtain ⟨s, hs, rfl⟩ := List.mem_map.mp hs2
    obtain ⟨c1, c2⟩ := k5 s hs
    by_cases hmatch : s.scheduleId = bk.scheduleId
    · rcases hbcls with hAC | hSL
      · rw [if_pos hmatch, if_pos hAC]
        dsimp only
        constructor <;> omega
      · rw [if_pos hmatch, if_neg (by simp [hSL])]
        dsimp only
        constructor <;> omega
    · rw [if_neg hmatch]
      exact ⟨c1, c2⟩

theorem inv_book (st : SysState) (today : Nat) (user : String) (sid : Nat)
    (choice numSeats : Int) (confirm : Char) (freshIds : List String) (hInv : Inv st) :
    Inv (bookTicket st today user sid choice numSeats confirm freshIds).2 := by
  rcases bookTicket_cases st today user sid choice numSeats confirm freshIds with
    ⟨heq, _⟩ | ⟨sched, cur, hfind, hcur, hchoice, hpos, hpre, hcurSeats, hconfirm, hfresh, heq⟩
  · rw [heq]; exact hInv
  obtain ⟨k1, k2, k3, k4, k5⟩ := hInv
  have hcurmem := List.mem_of_find?_eq_some hcur
  have hcursid : cur.scheduleId = sid := by
    have h := List.find?_some hcur
    simpa using h
  rw [heq]
  rcases hchoice with rfl | rfl
  · -- AC booking (choice = 1)
    simp only [if_pos (rfl : (1 : Int) = 1), if_true] at hcurSeats ⊢
    have hbcls : (mkBooking user sid 1 numSeats sched (freshIds.headD "TKT000000")).seatClass
        = "AC" := rfl
    have hbsid : (mkBooking user sid 1 numSeats sched (freshIds.headD "TKT000000")).scheduleId
        = sid := rfl
    have keysEq : (applyDecrement st.schedules sid 1 (cur.acAvailable - numSeats)).map
        (fun s => s.scheduleId) = st.schedules.map (fun s => s.scheduleId) := by
      unfold applyDecrement
      rw [keys_map_eq]
      intro s
      dsimp only
      split
      · split <;> rfl
      · rfl
    have hCB := fun cls sid0 => classBooked_append cls st.bookings
      (mkBooking user sid 1 numSeats sched (freshIds.headD "TKT000000")) sid0
    refine ⟨?_, ?_, ?_, ?_, ?_⟩
    · rw [keysEq]; exact k1
    · show ((st.bookings ++ [mkBooking user sid 1 numSeats sched (freshIds.headD "TKT000000")]).map
        (fun x => x.ticketId)).Nodup
      rw [List.map_append, List.nodup_append]
      refine ⟨k2, List.nodup_singleton _, ?_⟩
      intro a ha hmem
      simp only [List.map_cons, List.map_nil, List.mem_singleton] at hmem
      obtain ⟨b0, hb0, rfl⟩ := List.mem_map.mp ha
      exact hfresh b0 hb0 hmem
    · intro x hx
      rcases List.mem_append.mp hx with hx2 | hx2
      · obtain ⟨c1, c2, c3⟩ := k3 x hx2
        exact ⟨c1, c2, by rw [keysEq]; exact c3⟩
      · rw [List.mem_singleton] at hx2
        subst hx2
        refine ⟨Or.inl hbcls, hpos, ?_⟩
        rw [hbsid, keysEq]
        exact List.mem_map.mpr ⟨cur, hcurmem, hcursid⟩
    · intro s2 hs2
      have hs3 : s2 ∈ (applyDecrement st.schedules sid 1 (cur.acAvailable - numSeats)) := hs2
      unfold applyDecrement at hs3
      obtain ⟨s, hs, rfl⟩ := List.mem_map.mp hs3
      obtain ⟨c1, c2⟩ := k4 s hs
      simp only [if_pos (rfl : (1 : Int) = 1), if_true]
      rw [hCB "AC" _, hCB "Sleeper" _, hbsid, hbcls]
      by_cases hmatch : s.scheduleId = sid
      · have hseq : s = cur :=
          mem_eq_of_keys_nodup st.schedules k1 s cur hs hcurmem (by rw [hmatch, hcursid])
        subst hseq
        rw [if_pos hmatch]
        dsimp only
        rw [hmatch] at c1 c2
        rw [hmatch, if_pos ⟨rfl, rfl⟩, if_neg (by simp)]
        have hbcnt : (mkBooking user sid 1 numSeats sched
            (freshIds.headD "TKT000000")).seatCount = numSeats := rfl
        rw [hbcnt]
        constructor <;> omega
      · rw [if_neg hmatch]
        rw [if_neg (fun h => hmatch h.1.symm), if_neg (fun h => hmatch h.1.symm)]
        constructor <;> omega
    · intro s2 hs2
      have hs3 : s2 ∈ (applyDecrement st.schedules sid 1 (cur.acAvailable - numSeats)) := hs2
      unfold applyDecrement at hs3
      obtain ⟨s, hs, rfl⟩ := List.mem_map.mp hs3
      obtain ⟨c1, c2⟩ := k5 s hs
      simp only [if_pos (rfl : (1 : Int) = 1), if_true]
      by_cases hmatch : s.scheduleId = sid
      · rw [if_pos hmatch]
        dsimp only
        constructor <;> omega
      · rw [if_neg hmatch]
        exact ⟨c1, c2⟩
  · -- Sleeper booking (choice = 2)
    simp only [if_neg (by decide : ¬ (2 : Int) = 1)] at hcurSeats ⊢
    have hbcls : (mkBooking user sid 2 numSeats sched (freshIds.headD "TKT000000")).seatClass
        = "Sleeper" := rfl
    have hbsid : (mkBooking user sid 2 numSeats sched (freshIds.headD "TKT000000")).scheduleId
        = sid := rfl
    have keysEq : (applyDecrement st.schedules sid 2 (cur.sleeperAvailable - numSeats)).map
        (fun s => s.scheduleId) = st.schedules.map (fun s => s.scheduleId) := by
      unfold applyDecrement
      rw [keys_map_eq]
      intro s
      dsimp only
      split
      · split <;> rfl
      · rfl
    have hCB := fun cls sid0 => classBooked_append cls st.bookings
      (mkBooking user sid 2 numSeats sched (freshIds.headD "TKT000000")) sid0
    refine ⟨?_, ?_, ?_, ?_, ?_⟩
    · rw [keysEq]; exact k1
    · show ((st.bookings ++ [mkBooking user sid 2 numSeats sched (freshIds.headD "TKT000000")]).map
        (fun x => x.ticketId)).Nodup
      rw [List.map_append, List.nodup_append]
      refine ⟨k2, List.nodup_singleton _, ?_⟩
      intro a ha hmem
      simp only [List.map_cons, List.map_nil, List.mem_singleton] at hmem
      obtain ⟨b0, hb0, rfl⟩ := List.mem_map.mp ha
      exact hfresh b0 hb0 hmem
    · intro x hx
      rcases List.mem_append.mp hx with hx2 | hx2
      · obtain ⟨c1, c2, c3⟩ := k3 x hx2
        exact ⟨c1, c2, by rw [keysEq]; exact c3⟩
      · rw [List.mem_singleton] at hx2
        subst hx2
        refine ⟨Or.inr hbcls, hpos, ?_⟩
        rw [hbsid, keysEq]
        exact List.mem_map.mpr ⟨cur, hcurmem, hcursid⟩
    · intro s2 hs2
      have hs3 : s2 ∈ (applyDecrement st.schedules sid 2 (cur.sleeperAvailable - numSeats)) := hs2
      unfold applyDecrement at hs3
      obtain ⟨s, hs, rfl⟩ := List.mem_map.mp hs3
      obtain ⟨c1, c2⟩ := k4 s hs
      simp only [if_neg (by decide : ¬ (2 : Int) = 1)]
      rw [hCB "AC" _, hCB "Sleeper" _, hbsid, hbcls]
      by_cases hmatch : s.scheduleId = sid
      · have hseq : s = cur :=
          mem_eq_of_keys_nodup st.schedules k1 s cur hs hcurmem (by rw [hmatch, hcursid])
        subst hseq
        rw [if_pos hmatch]
        dsimp only
        rw [hmatch] at c1 c2
        rw [hmatch, if_neg (by simp), if_pos ⟨rfl, rfl⟩]
        have hbcnt : (mkBooking user sid 2 numSeats sched
            (freshIds.headD "TKT000000")).seatCount = numSeats := rfl
        rw [hbcnt]
        constructor <;> omega
      · rw [if_neg hmatch]
        rw [if_neg (fun h => hmatch h.1.symm), if_neg (fun h => hmatch h.1.symm)]
        constructor <;> omega
    · intro s2 hs2
      have hs3 : s2 ∈ (applyDecrement st.schedules sid 2 (cur.sleeperAvailable - numSeats)) := hs2
      unfold applyDecrement at hs3
      obtain ⟨s, hs, rfl⟩ := List.mem_map.mp hs3
      obtain ⟨c1, c2⟩ := k5 s hs
      simp only [if_neg (by decide : ¬ (2 : Int) = 1)]
      by_cases hmatch : s.scheduleId = sid
      · rw [if_pos hmatch]
        dsimp only
        constructor <;> omega
      · rw [if_neg hmatch]
        exact ⟨c1, c2⟩

/-- Every reachable state satisfies the inductive invariant. -/
theorem reachable_inv (st : SysState) (h : Reachable st) : Inv st := by
  induction h with
  | init =>
    refine ⟨List.nodup_nil, List.nodup_nil, ?_, ?_, ?_⟩
    · intro b hb
      cases hb
    · intro s hs
      cases hs
    · intro s hs
      cases hs
  | schedule st sid date totalAc totalSleeper acFare sleeperFare hr hac hsl hfresh ih =>
    exact inv_scheduleTrain st sid date totalAc totalSleeper acFare sleeperFare ih hac hsl hfresh
  | book st today user sid choice numSeats confirm freshIds hr ih =>
    exact inv_book st today user sid choice numSeats confirm freshIds ih
  | cancel st user tid hr ih =>
    exact inv_cancel st user tid ih

/-! ### The seat-count guard of line 580 -/

/-- The combined rejection of line 580: whenever
`numSeats <= 0 || numSeats > availableSeats` holds for the selected class,
booking answers with the single combined error message and leaves the
state untouched. -/
theorem book_seats_guard (st : SysState) (today : Nat) (user : String) (sid : Nat)
    (choice numSeats : Int) (confirm : Char) (freshIds : List String) (sched : Schedule)
    (hfind : (st.schedules.filter (fun s => decide (today ≤ s.date))).find?
      (fun s => decide (s.scheduleId = sid)) = some sched)
    (hchoice : choice = 1 ∨ choice = 2)
    (hcond : numSeats ≤ 0 ∨
      (if choice = 1 then sched.acAvailable else sched.sleeperAvailable) < numSeats) :
    bookTicket st today user sid choice numSeats confirm freshIds
      = (.invalidSeatsOrUnavailable, st) := by
  have hne : (st.schedules.filter (fun s => decide (today ≤ s.date))).isEmpty = false := by
    cases hl : st.schedules.filter (fun s => decide (today ≤ s.date)) with
    | nil => rw [hl] at hfind; cases hfind
    | cons a l => rfl
  unfold bookTicket
  dsimp only
  rw [hne, if_neg (by simp), hfind]
  dsimp only
  rw [if_pos hchoice, if_pos hcond]

/-! ### Concrete demonstration states used by the witnesses -/

def demoEmpty : SysState := ⟨[], []⟩

/-- One schedule of train capacity 5 AC / 4 Sleeper, fares 500 / 300. -/
def demoState : SysState := scheduleTrain demoEmpty 1 10 5 4 500 300

def demoSchedule : Schedule := ⟨1, 10, 5, 4, 5, 4, 500, 300⟩

/-- The booking created by booking 2 AC seats on `demoState`. -/
def demoBooked : Booking := ⟨"TKT123456", "bob", 1, "AC", 2, 1000⟩

/-- The state after booking 2 AC seats on `demoState`. -/
def demoPostBook : SysState := ⟨[⟨1, 10, 3, 4, 5, 4, 500, 300⟩], [demoBooked]⟩

theorem demoState_reachable : Reachable demoState :=
  Reachable.schedule demoEmpty 1 10 5 4 500 300 Reachable.init
    (by decide) (by decide) (by decide)

theorem demoPostBook_reachable : Reachable demoPostBook := by
  have h := Reachable.book demoState 10 "bob" 1 1 2 'y' ["TKT123456"] demoState_reachable
  have e : (bookTicket demoState 10 "bob" 1 1 2 'y' ["TKT123456"]).2 = demoPostBook := by
    decide
  rw [e] at h
  exact h

/-! ### The claims -/

/-- Claim C1: conservation invariant.  In every reachable state, for every
Schedule, `acAvailable` equals `acCapacity` minus the sum of `seatCount`
over all live AC Bookings referencing that schedule (and symmetrically for
Sleeper, stated here as `available + booked = capacity`), and every book
and cancel operation preserves the equality. -/
theorem conservation_reachable (st : SysState) (h : Reachable st) :
    Conservation st ∧
    (∀ (today : Nat) (user : String) (sid : Nat) (choice numSeats : Int)
      (confirm : Char) (freshIds : List String),
      Conservation (bookTicket st today user sid choice numSeats confirm freshIds).2) ∧
    (∀ (user tid : String), Conservation (cancelTicket st user tid).2) := by
  refine ⟨(reachable_inv st h).conserve, ?_, ?_⟩
  · intro today user sid choice numSeats confirm freshIds
    exact (reachable_inv _
      (Reachable.book st today user sid choice numSeats confirm freshIds h)).conserve
  · intro user tid
    exact (reachable_inv _ (Reachable.cancel st user tid h)).conserve

/-- Witness for C1 at a concrete reachable state. -/
theorem conservation_reachable_witness :
    demoSchedule.acAvailable + classBooked "AC" demoState.bookings demoSchedule.scheduleId
      = demoSchedule.acCapacity ∧
    demoSchedule.sleeperAvailable +
        classBooked "Sleeper" demoState.bookings demoSchedule.scheduleId
      = demoSchedule.sleeperCapacity :=
  (conservation_reachable demoState demoState_reachable).1 demoSchedule (by decide)

/-- Claim C2: non-negativity invariant.  In every reachable state both
availability counters of every Schedule are non-negative; in particular
the state after any booking step from a reachable state still has
non-negative counters, so a successful decrement never drives them below
zero. -/
theorem nonneg_reachable (st : SysState) (h : Reachable st) :
    NonnegAvail st ∧
    (∀ (today : Nat) (user : String) (sid : Nat) (choice numSeats : Int)
      (confirm : Char) (freshIds : List String),
      NonnegAvail (bookTicket st today user sid choice numSeats confirm freshIds).2) := by
  refine ⟨(reachable_inv st h).nonneg, ?_⟩
  intro today user sid choice numSeats confirm freshIds
  exact (reachable_inv _
    (Reachable.book st today user sid choice numSeats confirm freshIds h)).nonneg

/-- Witness for C2 at a concrete reachable state. -/
theorem nonneg_reachable_witness :
    0 ≤ demoSchedule.acAvailable ∧ 0 ≤ demoSchedule.sleeperAvailable :=
  (nonneg_reachable demoState demoState_reachable).1 demoSchedule (by decide)

/-- Claim C3: insufficient-seats atomicity.  When the requested seat count
exceeds the available count of the requested class of the selected
schedule, booking returns the code's insufficient-seats rejection
(`invalidSeatsOrUnavailable`, the message of line 580/581) and the whole
operation has no effect: the returned state is exactly the input state, so
no counter changes and no Booking is created. -/
theorem insufficientSeats_no_effect (st : SysState) (today : Nat) (user : String)
    (sid : Nat) (choice numSeats : Int) (confirm : Char) (freshIds : List String)
    (sched : Schedule)
    (hfind : (st.schedules.filter (fun s => decide (today ≤ s.date))).find?
      (fun s => decide (s.scheduleId = sid)) = some sched)
    (hchoice : choice = 1 ∨ choice = 2)
    (hinsuff : (if choice = 1 then sched.acAvailable else sched.sleeperAvailable) < numSeats) :
    bookTicket st today user sid choice numSeats confirm freshIds
      = (.invalidSeatsOrUnavailable, st) :=
  book_seats_guard st today user sid choice numSeats confirm freshIds sched
    hfind hchoice (Or.inr hinsuff)

/-- Witness for C3: 9 seats requested, 5 available. -/
theorem insufficientSeats_no_effect_witness :
    bookTicket demoState 10 "bob" 1 1 9 'y' ["TKT111111"]
      = (.invalidSeatsOrUnavailable, demoState) :=
  insufficientSeats_no_effect demoState 10 "bob" 1 1 9 'y' ["TKT111111"] demoSchedule
    (by decide) (by decide) (by decide)

/-- Claim C5: idempotent rejection of double cancellation.  After a
successful cancel, cancelling the same ticket id again (same owner)
returns `notFoundOrNotOwned` and changes nothing. -/
theorem cancel_twice_rejected (st st2 : SysState) (user tid : String)
    (h : cancelTicket st user tid = (.cancelled, st2)) :
    cancelTicket st2 user tid = (.notFoundOrNotOwned, st2) := by
  rcases cancelTicket_cases st user tid with ⟨_, heq⟩ | ⟨bk, hfind, heq⟩
  · rw [heq] at h
    injection h with h1 _
    exact nomatch h1
  · rw [heq] at h
    injection h with _ h2
    subst h2
    unfold cancelTicket
    dsimp only
    have hnone : (st.bookings.filter (fun b => decide (¬ b.ticketId = tid))).find?
        (fun b => decide (b.ticketId = tid ∧ b.owner = user)) = none := by
      rw [List.find?_eq_none]
      intro x hx
      have hxt : ¬ x.ticketId = tid := by
        have := List.of_mem_filter hx
        simpa using this
      simp only [decide_eq_true_eq, not_and]
      intro hc
      exact absurd hc hxt
    rw [hnone]

/-- Witness for C5: the double cancellation after the demo booking. -/
theorem cancel_twice_rejected_witness :
    cancelTicket demoState "bob" "TKT123456" = (.notFoundOrNotOwned, demoState) :=
  cancel_twice_rejected demoPostBook demoState "bob" "TKT123456" (by decide)

theorem map_restore (l : List Schedule) (u v : Schedule → Schedule)
    (h : ∀ s ∈ l, v (u s) = s) : (l.map u).map v = l := by
  rw [List.map_map]
  have h2 : ∀ s ∈ l, (v ∘ u) s = id s := fun s hs => h s hs
  rw [List.map_congr_left h2, List.map_id]

/-- Claim C4: round-trip.  A successful booking followed by a successful
cancellation of the returned ticket by the same user restores the state —
in particular both availability counters of every schedule — to exactly
their pre-booking values.  The key-uniqueness hypothesis reflects the
`schedule_id` PRIMARY KEY (line 99). -/
theorem book_cancel_roundtrip (st st2 : SysState) (b : Booking) (today : Nat)
    (user : String) (sid : Nat) (choice numSeats : Int) (confirm : Char)
    (freshIds : List String)
    (hnd : (st.schedules.map (fun s => s.scheduleId)).Nodup)
    (hbook : bookTicket st today user sid choice numSeats confirm freshIds
      = (.booked b, st2)) :
    cancelTicket st2 user b.ticketId = (.cancelled, st) := by
  rcases bookTicket_cases st today user sid choice numSeats confirm freshIds with
    ⟨_, hno⟩ | ⟨sched, cur, hfind, hcur, hchoice, hpos, hpre, hcurSeats, hconfirm, hfresh, heq⟩
  · exact absurd (congrArg Prod.fst hbook) (hno b)
  rw [heq] at hbook
  injection hbook with h1 h2
  injection h1 with hb
  subst hb
  subst h2
  have hcurmem := List.mem_of_find?_eq_some hcur
  have hcursid : cur.scheduleId = sid := by
    have h := List.find?_some hcur
    simpa using h
  rcases hchoice with rfl | rfl
  · -- AC round trip
    simp only [if_pos (rfl : (1 : Int) = 1), if_true]
    set bk := mkBooking user sid 1 numSeats sched (freshIds.headD "TKT000000") with hbkdef
    unfold cancelTicket
    dsimp only
    have hfindb : (st.bookings ++ [bk]).find?
        (fun x => decide (x.ticketId = bk.ticketId ∧ x.owner = user)) = some bk := by
      rw [List.find?_append]
      have hl : st.bookings.find?
          (fun x => decide (x.ticketId = bk.ticketId ∧ x.owner = user)) = none := by
        rw [List.find?_eq_none]
        intro x hx
        simp only [decide_eq_true_eq, not_and]
        intro hxt
        exact absurd hxt (hfresh x hx)
      rw [hl, List.find?_cons_of_pos _ (by simp [hbkdef, mkBooking])]
      rfl
    rw [hfindb]
    dsimp only
    have hbooks : (st.bookings ++ [bk]).filter
        (fun x => decide (¬ x.ticketId = bk.ticketId)) = st.bookings := by
      rw [List.filter_append,
        filter_no_tid st.bookings bk.ticketId (fun b0 h0 => hfresh b0 h0)]
      have hone : [bk].filter (fun x => decide (¬ x.ticketId = bk.ticketId)) = [] := by
        simp
      rw [hone, List.append_nil]
    have hscheds : (applyDecrement st.schedules sid 1 (cur.acAvailable - numSeats)).map
        (fun s => if s.scheduleId = bk.scheduleId then
          (if bk.seatClass = "AC" then
            { s with acAvailable := s.acAvailable + bk.seatCount }
           else
            { s with sleeperAvailable := s.sleeperAvailable + bk.seatCount })
        else s) = st.schedules := by
      unfold applyDecrement
      apply map_restore
      intro s hs
      by_cases hm : s.scheduleId = sid
      · have hseq : s = cur :=
          mem_eq_of_keys_nodup st.schedules hnd s cur hs hcurmem (by rw [hm, hcursid])
        subst hseq
        rw [if_pos hm, if_pos (rfl : (1 : Int) = 1)]
        split
        next =>
          split
          next =>
            dsimp only
            have harith : s.acAvailable - numSeats + bk.seatCount = s.acAvailable := by
              have hc : bk.seatCount = numSeats := rfl
              rw [hc]
              ring
            rw [harith]
          next hcl => exact absurd (show ("AC" : String) = "AC" from rfl) hcl
        next hcond => exact absurd hm hcond
      · rw [if_neg hm]
        rw [if_neg (show ¬ s.scheduleId = bk.scheduleId from hm)]
    rw [hbooks, hscheds]
  · -- Sleeper round trip
    simp only [if_neg (by decide : ¬ (2 : Int) = 1)]
    set bk := mkBooking user sid 2 numSeats sched (freshIds.headD "TKT000000") with hbkdef
    unfold cancelTicket
    dsimp only
    have hfindb : (st.bookings ++ [bk]).find?
        (fun x => decide (x.ticketId = bk.ticketId ∧ x.owner = user)) = some bk := by
      rw [List.find?_append]
      have hl : st.bookings.find?
          (fun x => decide (x.ticketId = bk.ticketId ∧ x.owner = user)) = none := by
        rw [List.find?_eq_none]
        intro x hx
        simp only [decide_eq_true_eq, not_and]
        intro hxt
        exact absurd hxt (hfresh x hx)
      rw [hl, List.find?_cons_of_pos _ (by simp [hbkdef, mkBooking])]
      rfl
    rw [hfindb]
    dsimp only
    have hbooks : (st.bookings ++ [bk]).filter
        (fun x => decide (¬ x.ticketId = bk.ticketId)) = st.bookings := by
      rw [List.filter_append,
        filter_no_tid st.bookings bk.ticketId (fun b0 h0 => hfresh b0 h0)]
      have hone : [bk].filter (fun x => decide (¬ x.ticketId = bk.ticketId)) = [] := by
        simp
      rw [hone, List.append_nil]
    have hscheds : (applyDecrement st.schedules sid 2 (cur.sleeperAvailable - numSeats)).map
        (fun s => if s.scheduleId = bk.scheduleId then
          (if bk.seatClass = "AC" then
            { s with acAvailable := s.acAvailable + bk.seatCount }
           else
            { s with sleeperAvailable := s.sleeperAvailable + bk.seatCount })
        else s) = st.schedules := by
      unfold applyDecrement
      apply map_restore
      intro s hs
      by_cases hm : s.scheduleId = sid
      · have hseq : s = cur :=
          mem_eq_of_keys_nodup st.schedules hnd s cur hs hcurmem (by rw [hm, hcursid])
        subst hseq
        rw [if_pos hm, if_neg (by decide : ¬ (2 : Int) = 1)]
        split
        next =>
          split
          next hcl => exact absurd (show ("Sleeper" : String) = "AC" from hcl) (by decide)
          next =>
            dsimp only
            have harith : s.sleeperAvailable - numSeats + bk.seatCount = s.sleeperAvailable := by
              have hc : bk.seatCount = numSeats := rfl
              rw [hc]
              ring
            rw [harith]
        next hcond => exact absurd hm hcond
      · rw [if_neg hm]
        rw [if_neg (show ¬ s.scheduleId = bk.scheduleId from hm)]
    rw [hbooks, hscheds]

/-- Witness for C4: booking 2 AC seats on the demo state and cancelling
the returned ticket restores the demo state exactly. -/
theorem book_cancel_roundtrip_witness :
    cancelTicket demoPostBook "bob" demoBooked.ticketId = (.cancelled, demoState) :=
  book_cancel_roundtrip demoState demoPostBook demoBooked 10 "bob" 1 1 2 'y' ["TKT123456"]
    (by decide) (by decide)

/-- Claim C6: fare computation.  The Booking created by a successful
booking carries `totalFare = seatCount * farePerSeat` where the per-seat
fare is the booked train's AC fare for class "AC" and its Sleeper fare
otherwise (line 584). -/
theorem booked_totalFare (st st2 : SysState) (b : Booking) (today : Nat) (user : String)
    (sid : Nat) (choice numSeats : Int) (confirm : Char) (freshIds : List String)
    (sched : Schedule)
    (hfind : (st.schedules.filter (fun s => decide (today ≤ s.date))).find?
      (fun s => decide (s.scheduleId = sid)) = some sched)
    (hbook : bookTicket st today user sid choice numSeats confirm freshIds
      = (.booked b, st2)) :
    b.totalFare = b.seatCount *
      (if b.seatClass = "AC" then sched.acFare else sched.sleeperFare) := by
  rcases bookTicket_cases st today user sid choice numSeats confirm freshIds with
    ⟨_, hno⟩ | ⟨sched2, cur, hfind2, hcur, hchoice, hpos, hpre, hcurSeats, hconfirm, hfresh, heq⟩
  · exact absurd (congrArg Prod.fst hbook) (hno b)
  rw [heq] at hbook
  injection hbook with h1 _
  injection h1 with hb
  subst hb
  rw [hfind] at hfind2
  injection hfind2 with hss
  subst hss
  rcases hchoice with rfl | rfl <;> rfl

/-- Witness for C6 on the demo booking. -/
theorem booked_totalFare_witness :
    demoBooked.totalFare = demoBooked.seatCount *
      (if demoBooked.seatClass = "AC" then demoSchedule.acFare
       else demoSchedule.sleeperFare) :=
  booked_totalFare demoState demoPostBook demoBooked 10 "bob" 1 1 2 'y' ["TKT123456"]
    demoSchedule (by decide) (by decide)

/-! ### C7: ticket-id collision handling -/

def cexSchedule : Schedule := ⟨1, 10, 4, 4, 5, 4, 500, 300⟩

def cexBooking : Booking := ⟨"TKT111111", "alice", 1, "AC", 1, 500⟩

/-- A consistent state in which ticket id "TKT111111" is already taken. -/
def cexState : SysState := ⟨[cexSchedule], [cexBooking]⟩

/-- Claim C7, counterexample: when the first generated ticket id collides
with an existing booking, the operation does NOT retry with the next fresh
id ("TKT999999" here, which is available) and does not escalate to a
distinct transaction-failure after a retry bound; it fails immediately
with the generic database error of line 623 and leaves the state
unchanged.  `generateTicketId` (line 585) is called exactly once per
attempt and lines 618-624 contain no retry loop. -/
theorem no_ticket_retry_cex :
    bookTicket cexState 10 "bob" 1 1 1 'y' ["TKT111111", "TKT999999"]
      = (.duplicateTicketDbError, cexState) := by decide

/-- Claim C7 (amended): when the generated ticket id collides with an
existing booking, the INSERT's primary-key violation aborts the
transaction: the state is unchanged, no booking is returned, and in
particular the existing booking is never overwritten; there is no retry
with a fresh id. -/
theorem duplicate_ticket_aborts (st : SysState) (today : Nat) (user : String)
    (sid : Nat) (choice numSeats : Int) (confirm : Char) (freshIds : List String)
    (hcol : ∃ b0 ∈ st.bookings, b0.ticketId = freshIds.headD "TKT000000") :
    (bookTicket st today user sid choice numSeats confirm freshIds).2 = st ∧
    ∀ b, (bookTicket st today user sid choice numSeats confirm freshIds).1
      ≠ .booked b := by
  rcases bookTicket_cases st today user sid choice numSeats confirm freshIds with
    ⟨h1, h2⟩ | ⟨_, _, _, _, _, _, _, _, _, hfresh, _⟩
  · exact ⟨h1, h2⟩
  · obtain ⟨b0, hb0, hb0t⟩ := hcol
    exact absurd hb0t (hfresh b0 hb0)

/-- Witness for the amended C7 at the collision state. -/
theorem duplicate_ticket_aborts_witness :
    (bookTicket cexState 10 "bob" 1 1 1 'y' ["TKT111111", "TKT999999"]).2 = cexState ∧
    (bookTicket cexState 10 "bob" 1 1 1 'y' ["TKT111111", "TKT999999"]).1
      ≠ .booked cexBooking :=
  ⟨(duplicate_ticket_aborts cexState 10 "bob" 1 1 1 'y' ["TKT111111", "TKT999999"]
      ⟨cexBooking, by decide, by decide⟩).1,
   (duplicate_ticket_aborts cexState 10 "bob" 1 1 1 'y' ["TKT111111", "TKT999999"]
      ⟨cexBooking, by decide, by decide⟩).2 cexBooking⟩

/-! ### C8: non-positive seat counts -/

/-- Claim C8, counterexample: a request for 0 seats (non-positive) is
rejected with exactly the same outcome as a request for 9 seats when only
5 are available — the code's single combined check of line 580.  The
rejection is therefore not an error distinct from the insufficient-seats
rejection. -/
theorem invalid_input_not_distinct_cex :
    bookTicket demoState 10 "bob" 1 1 0 'y' ["TKT123456"]
        = (.invalidSeatsOrUnavailable, demoState) ∧
    bookTicket demoState 10 "bob" 1 1 9 'y' ["TKT123456"]
        = (.invalidSeatsOrUnavailable, demoState) := by decide

/-- Claim C8 (amended): every book request with non-positive seat count
that reaches the seat-count prompt is rejected immediately with no state
change — but through the same combined rejection
(`invalidSeatsOrUnavailable`) that also covers insufficient seats, not a
distinct invalid-input error. -/
theorem nonpositive_seats_rejected (st : SysState) (today : Nat) (user : String)
    (sid : Nat) (choice numSeats : Int) (confirm : Char) (freshIds : List String)
    (sched : Schedule)
    (hfind : (st.schedules.filter (fun s => decide (today ≤ s.date))).find?
      (fun s => decide (s.scheduleId = sid)) = some sched)
    (hchoice : choice = 1 ∨ choice = 2)
    (hn : numSeats ≤ 0) :
    bookTicket st today user sid choice numSeats confirm freshIds
      = (.invalidSeatsOrUnavailable, st) :=
  book_seats_guard st today user sid choice numSeats confirm freshIds sched
    hfind hchoice (Or.inl hn)

/-- Witness for the amended C8: zero seats requested. -/
theorem nonpositive_seats_rejected_witness :
    bookTicket demoState 10 "bob" 1 1 0 'n' ["TKT111111"]
      = (.invalidSeatsOrUnavailable, demoState) :=
  nonpositive_seats_rejected demoState 10 "bob" 1 1 0 'n' ["TKT111111"] demoSchedule
    (by decide) (by decide) (by decide)

/-! ### C9: the class tag -/

/-- Claim C9: every Booking ever stored in a reachable state has seat
class exactly "AC" or "Sleeper" (booking rejects any other class choice
before touching state), and cancellation adds the seats back to the AC
counter exactly when the stored class equals "AC" and to the Sleeper
counter for every other stored class value (line 682). -/
theorem seatClass_tag_and_restore (st : SysState) :
    (Reachable st → ∀ b ∈ st.bookings,
      b.seatClass = "AC" ∨ b.seatClass = "Sleeper") ∧
    (∀ (user tid : String) (bk : Booking),
      st.bookings.find? (fun x => decide (x.ticketId = tid ∧ x.owner = user)) = some bk →
      ∀ i : Nat,
        (((cancelTicket st user tid).2.schedules[i]?).map (fun s => s.acAvailable)
          = (st.schedules[i]?).map (fun s =>
              if s.scheduleId = bk.scheduleId ∧ bk.seatClass = "AC"
              then s.acAvailable + bk.seatCount else s.acAvailable)) ∧
        (((cancelTicket st user tid).2.schedules[i]?).map (fun s => s.sleeperAvailable)
          = (st.schedules[i]?).map (fun s =>
              if s.scheduleId = bk.scheduleId ∧ ¬ bk.seatClass = "AC"
              then s.sleeperAvailable + bk.seatCount else s.sleeperAvailable))) := by
  constructor
  · intro h b hb
    exact ((reachable_inv st h).bookingsWF b hb).1
  · intro user tid bk hfind i
    rcases cancelTicket_cases st user tid with ⟨hnone, _⟩ | ⟨bk2, hfind2, heq⟩
    · rw [hfind] at hnone
      exact nomatch hnone
    · rw [hfind] at hfind2
      injection hfind2 with hbb
      subst hbb
      rw [heq]
      dsimp only
      constructor
      · rw [List.getElem?_map]
        cases hg : st.schedules[i]? with
        | none => rfl
        | some s =>
          dsimp only [Option.map]
          by_cases hm : s.scheduleId = bk.scheduleId
          · by_cases hc : bk.seatClass = "AC"
            · rw [if_pos hm, if_pos hc, if_pos ⟨hm, hc⟩]
            · rw [if_pos hm, if_neg hc, if_neg (fun hh => hc hh.2)]
          · rw [if_neg hm, if_neg (fun hh => hm hh.1)]
      · rw [List.getElem?_map]
        cases hg : st.schedules[i]? with
        | none => rfl
        | some s =>
          dsimp only [Option.map]
          by_cases hm : s.scheduleId = bk.scheduleId
          · by_cases hc : bk.seatClass = "AC"
            · rw [if_pos hm, if_pos hc, if_neg (fun hh => hh.2 hc)]
            · rw [if_pos hm, if_neg hc, if_pos ⟨hm, hc⟩]
          · rw [if_neg hm, if_neg (fun hh => hm hh.1)]

/-- Witness for C9 at the demo post-booking state. -/
theorem seatClass_tag_and_restore_witness :
    (demoBooked.seatClass = "AC" ∨ demoBooked.seatClass = "Sleeper") ∧
    ((cancelTicket demoPostBook "bob" "TKT123456").2.schedules[0]?).map
        (fun s => s.acAvailable)
      = (demoPostBook.schedules[0]?).map (fun s =>
          if s.scheduleId = demoBooked.scheduleId ∧ demoBooked.seatClass = "AC"
          then s.acAvailable + demoBooked.seatCount else s.acAvailable) :=
  ⟨(seatClass_tag_and_restore demoPostBook).1 demoPostBook_reachable demoBooked (by decide),
   ((seatClass_tag_and_restore demoPostBook).2 "bob" "TKT123456" demoBooked (by decide) 0).1⟩

/-! ### C10: declined confirmation -/

/-- Claim C10: when the confirmation input is any character other than
'y' or 'Y', booking performs no mutation at all — the state is returned
unchanged and no Booking is produced (lines 592-627). -/
theorem declined_confirmation_noop (st : SysState) (today : Nat) (user : String)
    (sid : Nat) (choice numSeats : Int) (confirm : Char) (freshIds : List String)
    (h1 : ¬ confirm = 'y') (h2 : ¬ confirm = 'Y') :
    (bookTicket st today user sid choice numSeats confirm freshIds).2 = st ∧
    ∀ b, (bookTicket st today user sid choice numSeats confirm freshIds).1
      ≠ .booked b := by
  rcases bookTicket_cases st today user sid choice numSeats confirm freshIds with
    ⟨ha, hb⟩ | ⟨_, _, _, _, _, _, _, _, hconfirm, _, _⟩
  · exact ⟨ha, hb⟩
  · rcases hconfirm with h | h
    · exact absurd h h1
    · exact absurd h h2

/-- Witness for C10: the same inputs that book successfully with 'y'
leave the state untouched with 'n'. -/
theorem declined_confirmation_noop_witness :
    (bookTicket demoState 10 "bob" 1 1 2 'n' ["TKT123456"]).2 = demoState ∧
    (bookTicket demoState 10 "bob" 1 1 2 'n' ["TKT123456"]).1 ≠ .booked demoBooked :=
  ⟨(declined_confirmation_noop demoState 10 "bob" 1 1 2 'n' ["TKT123456"]
      (by decide) (by decide)).1,
   (declined_confirmation_noop demoState 10 "bob" 1 1 2 'n' ["TKT123456"]
      (by decide) (by decide)).2 demoBooked⟩

end Railway
